import Mathlib

/-
Verification of the hot-reload render-pipeline core of grass-wgpu.

The Rust sources (src/file_watcher.rs, src/pipeline.rs, src/grass.rs,
src/quad.rs, src/input.rs, src/main.rs) are shallowly embedded below.
External crates (wgpu, shaderc, notify, rand/rand_hc, ultraviolet) appear
as explicit models: wgpu objects are represented by the descriptors the
code hands to the device, shaderc and the filesystem are represented by
explicit result-returning environments, and f32/matrix arithmetic from
ultraviolet and the rand sampling primitives are abstracted behind a
parameter structure (their numeric behaviour is external to this
repository; only the data flow through them is this code's).
-/

set_option autoImplicit false

namespace GrassWgpu

/-- Rust std::path::PathBuf, modelled by its list of components.
std::path::Path::ends_with is component-wise suffix matching. -/
structure PathBuf where
  components : List String
  deriving DecidableEq, Repr

/-- Path::ends_with: true iff the child path's components are a suffix of
this path's components. -/
def PathBuf.ends_with (p child : PathBuf) : Bool :=
  child.components.isSuffixOf p.components

/-- Splitting a character list on the path separator (structural, so it
evaluates on literals). -/
def splitSlash : List Char → List Char → List String
  | [], acc => [String.mk acc.reverse]
  | c :: cs, acc =>
      if c = '/' then String.mk acc.reverse :: splitSlash cs []
      else splitSlash cs (c :: acc)

/-- A path literal such as "assets/shaders/grass.vert", split on the
separator into its components, as Rust parses it. -/
def pathOfStr (s : String) : PathBuf :=
  ⟨splitSlash s.data []⟩

/-- Path::to_str: the components joined back with the separator (always
succeeds here since components are already UTF-8 strings). -/
def PathBuf.to_str (p : PathBuf) : Option String :=
  some (String.intercalate "/" p.components)

/-- HashSet::insert on a set represented as a duplicate-free list. -/
def hsInsert (s : List PathBuf) (p : PathBuf) : List PathBuf :=
  if p ∈ s then s else s ++ [p]

/-- HashSet::extend: insert every element of the iterator. -/
def hsExtend (s : List PathBuf) (ps : List PathBuf) : List PathBuf :=
  ps.foldl hsInsert s

/-- notify::event::EventKind (the Modify payload is ignored by the code,
so it is not modelled). -/
inductive EventKind where
  | any
  | access
  | create
  | modify
  | remove
  | other
  deriving DecidableEq, Repr

def EventKind.isModify : EventKind → Bool
  | .modify => true
  | _ => false

/-- notify::event::Event: the kind and the affected paths (other fields
are ignored by the `..` in the source's pattern). -/
structure Event where
  kind : EventKind
  paths : List PathBuf
  deriving DecidableEq, Repr

/-- One entry of the watcher channel: notify delivers Result<Event>, and
collect_modified calls .unwrap() on it. -/
abbrev EventResult := Except String Event

/-- The body of the set-accumulation in FileWatcher::collect_modified for
one Ok event: on a Modify event, set.get_or_insert(HashSet::new())
.extend(paths); any other kind leaves the accumulator alone. -/
def applyEvent (acc : Option (List PathBuf)) (e : Event) : Option (List PathBuf) :=
  if e.kind.isModify then some (hsExtend (acc.getD []) e.paths) else acc

/-- The try_recv loop of FileWatcher::collect_modified. The queue is the
list of currently buffered channel entries; once it is exhausted try_recv
reports Empty (loop breaks, returning the accumulator) or Disconnected
(the code panics with "Filesystem watcher disconnected."). An Err entry
makes res.unwrap() panic with the error text. Panics are modelled as
Except.error. -/
def collectLoop (acc : Option (List PathBuf)) :
    List EventResult → Bool → Except String (Option (List PathBuf))
  | [], false => Except.ok acc
  | [], true => Except.error "Filesystem watcher disconnected."
  | Except.error e :: _, _ => Except.error e
  | Except.ok ev :: rest, disconnected =>
      collectLoop (applyEvent acc ev) rest disconnected

/-- FileWatcher::collect_modified (src/file_watcher.rs:46-66), as a
function of the queued channel entries and of whether the channel reports
Disconnected once the queue is drained. -/
def FileWatcher.collect_modified (queue : List EventResult) (disconnected : Bool) :
    Except String (Option (List PathBuf)) :=
  collectLoop none queue disconnected

/-- A queue in which every buffered entry is an Ok event. -/
def okQueue (evs : List Event) : List EventResult :=
  evs.map Except.ok

/-- Input<T> (src/input.rs): three hash sets, modelled as duplicate-free
lists. -/
structure Input (T : Type) where
  pressed : List T
  just_pressed : List T
  just_released : List T
  deriving Repr

/-- Set insert for the Input sets. -/
def setInsert {T : Type} [DecidableEq T] (s : List T) (v : T) : List T :=
  if v ∈ s then s else s ++ [v]

/-- Input::activate: insert into pressed and just_pressed. -/
def Input.activate {T : Type} [DecidableEq T] (i : Input T) (value : T) : Input T :=
  { i with
    pressed := setInsert i.pressed value
    just_pressed := setInsert i.just_pressed value }

/-- Input::deactivate: remove from pressed, insert into just_released. -/
def Input.deactivate {T : Type} [DecidableEq T] (i : Input T) (value : T) : Input T :=
  { i with
    pressed := i.pressed.filter (fun x => x ≠ value)
    just_released := setInsert i.just_released value }

/-- Input::update: clear both per-frame sets. -/
def Input.update {T : Type} (i : Input T) : Input T :=
  { i with just_pressed := [], just_released := [] }

/-- Input::pressed accessor (the method; the field keeps the source name). -/
def Input.isPressed {T : Type} [DecidableEq T] (i : Input T) (value : T) : Bool :=
  decide (value ∈ i.pressed)

/-- Input::just_pressed accessor. -/
def Input.isJustPressed {T : Type} [DecidableEq T] (i : Input T) (value : T) : Bool :=
  decide (value ∈ i.just_pressed)

/-- Input::just_released accessor, exactly as written at src/input.rs:49-51:
its body reads the just_pressed set. -/
def Input.isJustReleased {T : Type} [DecidableEq T] (i : Input T) (value : T) : Bool :=
  decide (value ∈ i.just_pressed)

/-
wgpu fixed-function state types (wgpu 0.7), restricted to the
constructors this code uses. A pipeline is modelled by the
RenderPipelineDescriptor the code passes to device.create_render_pipeline.
-/

inductive TextureFormat where
  | depth32Float
  | rgba8UnormSrgb
  | bgra8UnormSrgb
  | other (id : Nat)
  deriving DecidableEq, Repr

/-- Texture::DEPTH_FORMAT (src/texture.rs:142). -/
def Texture.DEPTH_FORMAT : TextureFormat := .depth32Float

/-- Texture::MSAA_SAMPLES (src/texture.rs:143). -/
def Texture.MSAA_SAMPLES : Nat := 4

inductive BlendFactor where
  | zero
  | one
  | srcAlpha
  | oneMinusSrcAlpha
  deriving DecidableEq, Repr

inductive BlendOperation where
  | add
  | max
  deriving DecidableEq, Repr

structure BlendState where
  src_factor : BlendFactor
  dst_factor : BlendFactor
  operation : BlendOperation
  deriving DecidableEq, Repr

/-- wgpu::BlendState::REPLACE. -/
def BlendState.REPLACE : BlendState :=
  { src_factor := .one, dst_factor := .zero, operation := .add }

inductive ColorWrite where
  | ALL
  deriving DecidableEq, Repr

structure ColorTargetState where
  format : TextureFormat
  alpha_blend : BlendState
  color_blend : BlendState
  write_mask : ColorWrite
  deriving DecidableEq, Repr

inductive PrimitiveTopology where
  | triangleList
  deriving DecidableEq, Repr

inductive IndexFormat where
  | uint16
  | uint32
  deriving DecidableEq, Repr

inductive FrontFace where
  | ccw
  | cw
  deriving DecidableEq, Repr

inductive CullMode where
  | none
  | front
  | back
  deriving DecidableEq, Repr

inductive PolygonMode where
  | fill
  deriving DecidableEq, Repr

structure PrimitiveState where
  topology : PrimitiveTopology
  strip_index_format : Option IndexFormat
  front_face : FrontFace
  cull_mode : CullMode
  polygon_mode : PolygonMode
  deriving DecidableEq, Repr

inductive CompareFunction where
  | less
  | lessEqual
  deriving DecidableEq, Repr

/-- wgpu::StencilState; the code only ever uses StencilState::default(). -/
inductive StencilState where
  | default
  deriving DecidableEq, Repr

/-- wgpu::DepthBiasState; the code only ever uses its default. -/
inductive DepthBiasState where
  | default
  deriving DecidableEq, Repr

structure DepthStencilState where
  format : TextureFormat
  depth_write_enabled : Bool
  depth_compare : CompareFunction
  stencil : StencilState
  bias : DepthBiasState
  clamp_depth : Bool
  deriving DecidableEq, Repr

structure MultisampleState where
  count : Nat
  mask : Nat
  alpha_to_coverage_enabled : Bool
  deriving DecidableEq, Repr

inductive VertexFormat where
  | float2
  | float3
  | float4
  deriving DecidableEq, Repr

structure VertexAttribute where
  offset : Nat
  shader_location : Nat
  format : VertexFormat
  deriving DecidableEq, Repr

inductive InputStepMode where
  | Vertex
  | Instance
  deriving DecidableEq, Repr

/-- std::mem::size_of for an [f32; n] array, in bytes. -/
def size_of_f32_array (n : Nat) : Nat := 4 * n

structure VertexBufferLayout where
  array_stride : Nat
  step_mode : InputStepMode
  attributes : List VertexAttribute
  deriving DecidableEq, Repr

/-- The SPIR-V words handed to wgpu (artifact.as_binary() is a u32 slice). -/
inductive ShaderSource where
  | spirV (words : List Nat)
  deriving DecidableEq, Repr

/-- wgpu::ShaderFlags; the code only ever uses ShaderFlags::default(). -/
inductive ShaderFlags where
  | default
  deriving DecidableEq, Repr

structure ShaderModuleDescriptor where
  label : Option String
  source : ShaderSource
  flags : ShaderFlags
  deriving DecidableEq, Repr

/-- Bind group layouts are opaque device objects; they are identified by
numeric ids in this embedding. -/
structure PipelineLayoutDescriptor where
  label : Option String
  bind_group_layouts : List Nat
  push_constant_ranges : List Unit
  deriving DecidableEq, Repr

structure VertexState where
  module : ShaderModuleDescriptor
  entry_point : String
  buffers : List VertexBufferLayout
  deriving DecidableEq, Repr

structure FragmentState where
  module : ShaderModuleDescriptor
  entry_point : String
  targets : List ColorTargetState
  deriving DecidableEq, Repr

structure RenderPipelineDescriptor where
  label : Option String
  layout : Option PipelineLayoutDescriptor
  vertex : VertexState
  fragment : Option FragmentState
  primitive : PrimitiveState
  depth_stencil : Option DepthStencilState
  multisample : MultisampleState
  deriving DecidableEq, Repr

/-
shaderc and the filesystem, modelled as explicit environments.
-/

inductive ShaderKind where
  | vertex
  | fragment
  deriving DecidableEq, Repr

/-- A successful shaderc compilation artifact: the SPIR-V binary words and
the warning count. -/
structure SpirvArtifact where
  binary : List Nat
  num_warnings : Nat
  deriving DecidableEq, Repr

/-- The behaviour of the shaderc library as this code observes it:
Compiler::new() may fail (None), and compile_into_spirv returns either an
artifact or a compile error (its message). additional_options is always
None in this code. -/
structure ShadercModel where
  new : Option Unit
  compile_into_spirv :
    String → ShaderKind → String → String → Option Unit → Except String SpirvArtifact

/-- std::fs::read_to_string, as an environment mapping a path to its
contents or a read error. -/
structure FsModel where
  read_to_string : PathBuf → Except Unit String

/-- compile_shader (src/pipeline.rs:8-40): create a compiler (None on
failure), compile, and on success wrap the binary as ShaderSource::SpirV;
a compile error is logged and returned as None. -/
def compile_shader (sc : ShadercModel) (source_text : String) (shader_kind : ShaderKind)
    (input_file_name entry_point_name : String) (additional_options : Option Unit) :
    Option ShaderSource :=
  match sc.new with
  | none => none
  | some _ =>
    match sc.compile_into_spirv source_text shader_kind input_file_name
        entry_point_name additional_options with
    | Except.ok artifact => some (ShaderSource.spirV artifact.binary)
    | Except.error _ => none

/-- create_default_pipeline (src/pipeline.rs:42-133), returning the
descriptor handed to device.create_render_pipeline. -/
def create_default_pipeline (fs : FsModel) (sc : ShadercModel)
    (sc_desc_format : TextureFormat) (bind_group_layouts : List Nat)
    (vertex_buffers_layout : List VertexBufferLayout)
    (vs_path fs_path : PathBuf) : Option RenderPipelineDescriptor := do
  let vs_src ← (fs.read_to_string vs_path).toOption
  let vs_data ← compile_shader sc vs_src .vertex
    ((vs_path.to_str).getD "vertex_shader.unknown") "main" none
  let fs_src ← (fs.read_to_string fs_path).toOption
  let fs_data ← compile_shader sc fs_src .fragment
    ((fs_path.to_str).getD "fragment_shader.unknown") "main" none
  let vs_module : ShaderModuleDescriptor :=
    { label := some "Vertex Shader", source := vs_data, flags := .default }
  let fs_module : ShaderModuleDescriptor :=
    { label := some "Fragment Shader", source := fs_data, flags := .default }
  let render_pipeline_layout : PipelineLayoutDescriptor :=
    { label := some "Render Pipeline Layout"
      bind_group_layouts := bind_group_layouts
      push_constant_ranges := [] }
  some
    { label := some "Render Pipeline"
      layout := some render_pipeline_layout
      vertex :=
        { module := vs_module, entry_point := "main", buffers := vertex_buffers_layout }
      fragment := some
        { module := fs_module
          entry_point := "main"
          targets :=
            [{ format := sc_desc_format
               alpha_blend := BlendState.REPLACE
               color_blend := BlendState.REPLACE
               write_mask := .ALL }] }
      primitive :=
        { topology := .triangleList
          strip_index_format := none
          front_face := .ccw
          cull_mode := .none
          polygon_mode := .fill }
      depth_stencil := some
        { format := Texture.DEPTH_FORMAT
          depth_write_enabled := true
          depth_compare := .less
          stencil := .default
          bias := .default
          clamp_depth := false }
      multisample :=
        { count := Texture.MSAA_SAMPLES
          mask := 2 ^ 64 - 1
          alpha_to_coverage_enabled := false } }

/-- create_transparent_pipeline (src/pipeline.rs:136-235): identical to
the default variant except for the color target's blend states. -/
def create_transparent_pipeline (fs : FsModel) (sc : ShadercModel)
    (sc_desc_format : TextureFormat) (bind_group_layouts : List Nat)
    (vertex_buffers_layout : List VertexBufferLayout)
    (vs_path fs_path : PathBuf) : Option RenderPipelineDescriptor := do
  let vs_src ← (fs.read_to_string vs_path).toOption
  let vs_data ← compile_shader sc vs_src .vertex
    ((vs_path.to_str).getD "vertex_shader.unknown") "main" none
  let fs_src ← (fs.read_to_string fs_path).toOption
  let fs_data ← compile_shader sc fs_src .fragment
    ((fs_path.to_str).getD "fragment_shader.unknown") "main" none
  let vs_module : ShaderModuleDescriptor :=
    { label := some "Vertex Shader", source := vs_data, flags := .default }
  let fs_module : ShaderModuleDescriptor :=
    { label := some "Fragment Shader", source := fs_data, flags := .default }
  let render_pipeline_layout : PipelineLayoutDescriptor :=
    { label := some "Render Pipeline Layout"
      bind_group_layouts := bind_group_layouts
      push_constant_ranges := [] }
  some
    { label := some "Render Pipeline"
      layout := some render_pipeline_layout
      vertex :=
        { module := vs_module, entry_point := "main", buffers := vertex_buffers_layout }
      fragment := some
        { module := fs_module
          entry_point := "main"
          targets :=
            [{ format := sc_desc_format
               color_blend :=
                 { src_factor := .srcAlpha
                   dst_factor := .oneMinusSrcAlpha
                   operation := .add }
               alpha_blend :=
                 { src_factor := .one
                   dst_factor := .one
                   operation := .max }
               write_mask := .ALL }] }
      primitive :=
        { topology := .triangleList
          strip_index_format := none
          front_face := .ccw
          cull_mode := .none
          polygon_mode := .fill }
      depth_stencil := some
        { format := Texture.DEPTH_FORMAT
          depth_write_enabled := true
          depth_compare := .less
          stencil := .default
          bias := .default
          clamp_depth := false }
      multisample :=
        { count := Texture.MSAA_SAMPLES
          mask := 2 ^ 64 - 1
          alpha_to_coverage_enabled := false } }

/-
The numeric external crates (ultraviolet's f32 vectors and matrices,
rand/rand_hc sampling), abstracted as a parameter structure. Source
floating-point literals are injected through lit from their exact
rational value; 20.0/255.0 style expressions use the abstract f32
division. Only the data flow through these operations belongs to this
repository, so the claims below hold for every interpretation.
-/

structure NumModel where
  F : Type
  V2 : Type
  V3 : Type
  V4 : Type
  M : Type
  R : Type
  lit : Rat → F
  fdiv : F → F → F
  vec2 : F → F → V2
  vec3 : F → F → F → V3
  vec4 : F → F → F → F → V4
  from_scale : F → M
  from_translation : V3 → M
  from_nonuniform_scale : V3 → M
  matMul : M → M → M
  seed_from_u64 : Nat → R
  sampleUniform : F → F → R → F × R

/-- The slice of main.rs's State that grass/quad bundle construction and
the reload protocol read: the swap-chain format, the shared uniform bind
group layout and bind group (opaque device objects, identified by ids),
and the ambient filesystem and shaderc behaviour reached through
create_default_pipeline. The device itself only records descriptors. -/
structure State where
  sc_format : TextureFormat
  uniform_bind_group_layout : Nat
  uniform_bind_group : Nat
  fs : FsModel
  shaderc : ShadercModel

/-- State::files_changed (src/main.rs:255) is a no-op. -/
def State.files_changed (s : State) (_changed : List PathBuf) : State := s

/-- A finished wgpu::RenderBundle, modelled as the commands the encoder
recorded: the encoder descriptor, the bound pipeline, the contents of the
two vertex-stage buffers, the shared uniform bind group at index 0, and
the single draw call's ranges. -/
structure RenderBundle (V I : Type) where
  color_formats : List TextureFormat
  depth_stencil_format : Option TextureFormat
  sample_count : Nat
  pipeline : RenderPipelineDescriptor
  vertex_buffer : List V
  instance_buffer : List I
  uniform_bind_group : Nat
  draw_vertices : Nat
  draw_instances : Nat
  label : Option String

namespace grass

/-- grass::Vertex (src/grass.rs:11-15). -/
structure Vertex (nm : NumModel) where
  position : nm.V3
  normal : nm.V3
  tex_coords : nm.V2

/-- grass::Vertex::attributes (src/grass.rs:18-36). -/
def Vertex.attributes : List VertexAttribute :=
  [ { offset := 0, shader_location := 0, format := .float3 }
  , { offset := size_of_f32_array 3, shader_location := 1, format := .float3 }
  , { offset := size_of_f32_array 6, shader_location := 2, format := .float2 } ]

/-- grass::VERTICES (src/grass.rs:39-55). -/
def VERTICES (nm : NumModel) : List (Vertex nm) :=
  [ { position := nm.vec3 (nm.lit 0.0) (nm.lit 1.0) (nm.lit 0.0)
      tex_coords := nm.vec2 (nm.lit 0.5) (nm.lit 1.0)
      normal := nm.vec3 (nm.lit 0.0) (nm.lit 0.0) (nm.lit 1.0) }
  , { position := nm.vec3 (nm.lit (-0.5)) (nm.lit 0.0) (nm.lit 0.0)
      tex_coords := nm.vec2 (nm.lit 0.0) (nm.lit 0.0)
      normal := nm.vec3 (nm.lit 0.0) (nm.lit 0.0) (nm.lit 1.0) }
  , { position := nm.vec3 (nm.lit 0.5) (nm.lit 0.0) (nm.lit 0.0)
      tex_coords := nm.vec2 (nm.lit 1.0) (nm.lit 0.0)
      normal := nm.vec3 (nm.lit 0.0) (nm.lit 0.0) (nm.lit 1.0) } ]

/-- grass::Instance (src/grass.rs:57-61). -/
structure Instance (nm : NumModel) where
  mat : nm.M

/-- grass::Instance::attributes (src/grass.rs:64-87). -/
def Instance.attributes : List VertexAttribute :=
  [ { offset := 0, shader_location := 5, format := .float4 }
  , { offset := size_of_f32_array 4, shader_location := 6, format := .float4 }
  , { offset := size_of_f32_array 8, shader_location := 7, format := .float4 }
  , { offset := size_of_f32_array 12, shader_location := 8, format := .float4 } ]

/-- One iteration of the instance loop (src/grass.rs:107-115): sample
pos.x, pos.z, width, height in argument order, then build
from_translation(pos) * from_nonuniform_scale(width, height, width). -/
def sampleInstance (nm : NumModel) (rng : nm.R) : Instance nm × nm.R :=
  let px := nm.sampleUniform (nm.lit (-1.0)) (nm.lit 1.0) rng
  let pz := nm.sampleUniform (nm.lit (-1.0)) (nm.lit 1.0) px.2
  let w := nm.sampleUniform (nm.lit 0.02) (nm.lit 0.04) pz.2
  let h := nm.sampleUniform (nm.lit 0.04) (nm.lit 0.08) w.2
  let pos := nm.vec3 px.1 (nm.lit 0.0) pz.1
  ( { mat := nm.matMul (nm.from_translation pos)
        (nm.from_nonuniform_scale (nm.vec3 w.1 h.1 w.1)) }
  , h.2 )

/-- The for-loop over 0..count threading the rng and pushing each built
Instance onto the vector (src/grass.rs:107-115). -/
def genLoop (nm : NumModel) : Nat → List (Instance nm) × nm.R → List (Instance nm) × nm.R
  | 0, acc => acc
  | n + 1, acc =>
      let step := sampleInstance nm acc.2
      genLoop nm n (acc.1 ++ [step.1], step.2)

/-- The instance vector built by grass::create_bundle's loop, from the
initial rng state. -/
def genInstances (nm : NumModel) (count : Nat) (rng : nm.R) : List (Instance nm) × nm.R :=
  genLoop nm count ([], rng)

/-- grass::create_bundle (src/grass.rs:90-163). The instance data is
generated from Hc128Rng::seed_from_u64(0) with 20000 iterations; the
pipeline comes from create_default_pipeline with the grass shader pair;
failure of the pipeline build propagates as None. -/
def create_bundle (nm : NumModel) (state : State) :
    Option (RenderBundle (Vertex nm) (Instance nm)) :=
  let vertex_buffer := VERTICES nm
  let instances := (genInstances nm 20000 (nm.seed_from_u64 0)).1
  match create_default_pipeline state.fs state.shaderc state.sc_format
      [state.uniform_bind_group_layout]
      [ { array_stride := size_of_f32_array 8
          step_mode := .Vertex
          attributes := Vertex.attributes }
      , { array_stride := size_of_f32_array 16
          step_mode := .Instance
          attributes := Instance.attributes } ]
      (pathOfStr "assets/shaders/grass.vert")
      (pathOfStr "assets/shaders/blinn_phong.frag") with
  | none => none
  | some pipeline =>
      some
        { color_formats := [state.sc_format]
          depth_stencil_format := some Texture.DEPTH_FORMAT
          sample_count := Texture.MSAA_SAMPLES
          pipeline := pipeline
          vertex_buffer := vertex_buffer
          instance_buffer := instances
          uniform_bind_group := state.uniform_bind_group
          draw_vertices := vertex_buffer.length
          draw_instances := instances.length
          label := some "grass" }

/-- GrassPipeline (src/grass.rs:165-167). -/
structure GrassPipeline (nm : NumModel) where
  render_bundle : Option (RenderBundle (Vertex nm) (Instance nm))

/-- GrassPipeline::create (src/grass.rs:170-174). -/
def GrassPipeline.create (nm : NumModel) (state : State) : GrassPipeline nm :=
  { render_bundle := create_bundle nm state }

/-- The suffix guard of GrassPipeline::files_changed (src/grass.rs:179-182). -/
def shader_changed (changed : List PathBuf) : Bool :=
  changed.any fun path =>
    path.ends_with (pathOfStr "assets/shaders/grass.vert") ||
      path.ends_with (pathOfStr "assets/shaders/blinn_phong.frag")

/-- GrassPipeline::files_changed (src/grass.rs:178-189): on a suffix
match rebuild the bundle, and install it only when it is Some. -/
def GrassPipeline.files_changed (nm : NumModel) (self : GrassPipeline nm)
    (state : State) (changed : List PathBuf) : GrassPipeline nm :=
  if shader_changed changed then
    let bundle := create_bundle nm state
    if bundle.isSome then { render_bundle := bundle } else self
  else self

end grass

namespace quad

/-- quad::Vertex (src/quad.rs:10-14): same shape as grass::Vertex. -/
structure Vertex (nm : NumModel) where
  position : nm.V3
  normal : nm.V3
  tex_coords : nm.V2

/-- quad::Vertex::attributes (src/quad.rs:17-35). -/
def Vertex.attributes : List VertexAttribute :=
  [ { offset := 0, shader_location := 0, format := .float3 }
  , { offset := size_of_f32_array 3, shader_location := 1, format := .float3 }
  , { offset := size_of_f32_array 6, shader_location := 2, format := .float2 } ]

/-- quad::VERTICES (src/quad.rs:38-70): two triangles of the unit quad. -/
def VERTICES (nm : NumModel) : List (Vertex nm) :=
  [ { position := nm.vec3 (nm.lit (-0.5)) (nm.lit 0.0) (nm.lit (-0.5))
      tex_coords := nm.vec2 (nm.lit 0.0) (nm.lit 0.0)
      normal := nm.vec3 (nm.lit 0.0) (nm.lit 1.0) (nm.lit 0.0) }
  , { position := nm.vec3 (nm.lit 0.5) (nm.lit 0.0) (nm.lit 0.5)
      tex_coords := nm.vec2 (nm.lit 1.0) (nm.lit 1.0)
      normal := nm.vec3 (nm.lit 0.0) (nm.lit 1.0) (nm.lit 0.0) }
  , { position := nm.vec3 (nm.lit 0.5) (nm.lit 0.0) (nm.lit (-0.5))
      tex_coords := nm.vec2 (nm.lit 1.0) (nm.lit 0.0)
      normal := nm.vec3 (nm.lit 0.0) (nm.lit 1.0) (nm.lit 0.0) }
  , { position := nm.vec3 (nm.lit (-0.5)) (nm.lit 0.0) (nm.lit (-0.5))
      tex_coords := nm.vec2 (nm.lit 0.0) (nm.lit 0.0)
      normal := nm.vec3 (nm.lit 0.0) (nm.lit 1.0) (nm.lit 0.0) }
  , { position := nm.vec3 (nm.lit (-0.5)) (nm.lit 0.0) (nm.lit 0.5)
      tex_coords := nm.vec2 (nm.lit 0.0) (nm.lit 1.0)
      normal := nm.vec3 (nm.lit 0.0) (nm.lit 1.0) (nm.lit 0.0) }
  , { position := nm.vec3 (nm.lit 0.5) (nm.lit 0.0) (nm.lit 0.5)
      tex_coords := nm.vec2 (nm.lit 1.0) (nm.lit 1.0)
      normal := nm.vec3 (nm.lit 0.0) (nm.lit 1.0) (nm.lit 0.0) } ]

/-- quad::Instance (src/quad.rs:72-77). -/
structure Instance (nm : NumModel) where
  mat : nm.M
  color : nm.V4

/-- quad::Instance::attributes (src/quad.rs:80-108). -/
def Instance.attributes : List VertexAttribute :=
  [ { offset := 0, shader_location := 5, format := .float4 }
  , { offset := size_of_f32_array 4, shader_location := 6, format := .float4 }
  , { offset := size_of_f32_array 8, shader_location := 7, format := .float4 }
  , { offset := size_of_f32_array 12, shader_location := 8, format := .float4 }
  , { offset := size_of_f32_array 16, shader_location := 9, format := .float4 } ]

/-- quad::create_bundle (src/quad.rs:112-174): one fixed instance and the
quad shader pair; pipeline failure propagates as None. -/
def create_bundle (nm : NumModel) (state : State) :
    Option (RenderBundle (Vertex nm) (Instance nm)) :=
  let vertex_buffer := VERTICES nm
  let instances : List (Instance nm) :=
    [ { mat := nm.from_scale (nm.lit 2.0)
        color := nm.vec4 (nm.fdiv (nm.lit 20.0) (nm.lit 255.0))
          (nm.fdiv (nm.lit 40.0) (nm.lit 255.0)) (nm.lit 0.0) (nm.lit 1.0) } ]
  match create_default_pipeline state.fs state.shaderc state.sc_format
      [state.uniform_bind_group_layout]
      [ { array_stride := size_of_f32_array 8
          step_mode := .Vertex
          attributes := Vertex.attributes }
      , { array_stride := size_of_f32_array 20
          step_mode := .Instance
          attributes := Instance.attributes } ]
      (pathOfStr "assets/shaders/quad.vert")
      (pathOfStr "assets/shaders/blinn_phong.frag") with
  | none => none
  | some pipeline =>
      some
        { color_formats := [state.sc_format]
          depth_stencil_format := some Texture.DEPTH_FORMAT
          sample_count := Texture.MSAA_SAMPLES
          pipeline := pipeline
          vertex_buffer := vertex_buffer
          instance_buffer := instances
          uniform_bind_group := state.uniform_bind_group
          draw_vertices := vertex_buffer.length
          draw_instances := instances.length
          label := some "quad" }

/-- QuadPipeline (src/quad.rs:177-179). -/
structure QuadPipeline (nm : NumModel) where
  render_bundle : Option (RenderBundle (Vertex nm) (Instance nm))

/-- QuadPipeline::create (src/quad.rs:182-187). -/
def QuadPipeline.create (nm : NumModel) (state : State) : QuadPipeline nm :=
  { render_bundle := create_bundle nm state }

/-- The suffix guard of QuadPipeline::files_changed (src/quad.rs:192-194). -/
def shader_changed (changed : List PathBuf) : Bool :=
  changed.any fun path =>
    path.ends_with (pathOfStr "assets/shaders/quad.vert") ||
      path.ends_with (pathOfStr "assets/shaders/blinn_phong.frag")

/-- QuadPipeline::files_changed (src/quad.rs:191-201). -/
def QuadPipeline.files_changed (nm : NumModel) (self : QuadPipeline nm)
    (state : State) (changed : List PathBuf) : QuadPipeline nm :=
  if shader_changed changed then
    let bundle := create_bundle nm state
    if bundle.isSome then { render_bundle := bundle } else self
  else self

end quad

/-- The registered handlers, in the push order of src/main.rs:352-363:
QuadPipeline first, then GrassPipeline. Each handler's render_bundle()
trait method returns its render_bundle field as_ref, so the field itself
is the observable state. -/
structure Pipelines (nm : NumModel) where
  quad : quad.QuadPipeline nm
  grass : grass.GrassPipeline nm

/-- The change-poll tail of the RedrawRequested arm (src/main.rs:404-409):
drain the watcher once; on None do nothing; on Some forward the set to
State::files_changed and then to every handler in registration order.
The update/render prefix of the arm touches no handler state. -/
def poll_and_dispatch (nm : NumModel) (state : State) (ps : Pipelines nm)
    (queue : List EventResult) (disconnected : Bool) :
    Except String (State × Pipelines nm) :=
  match FileWatcher.collect_modified queue disconnected with
  | Except.error msg => Except.error msg
  | Except.ok none => Except.ok (state, ps)
  | Except.ok (some changed) =>
      let state := State.files_changed state changed
      let q := quad.QuadPipeline.files_changed nm ps.quad state changed
      let g := grass.GrassPipeline.files_changed nm ps.grass state changed
      Except.ok (state, { quad := q, grass := g })

/-
Concrete interpretations used to exhibit runs of the embedded code.
-/

/-- A degenerate interpretation of the numeric crates in which every
carrier is Unit; it satisfies the NumModel signature and makes bundle
construction fully computable. -/
def nmUnit : NumModel where
  F := Unit
  V2 := Unit
  V3 := Unit
  V4 := Unit
  M := Unit
  R := Unit
  lit := fun _ => ()
  fdiv := fun _ _ => ()
  vec2 := fun _ _ => ()
  vec3 := fun _ _ _ => ()
  vec4 := fun _ _ _ _ => ()
  from_scale := fun _ => ()
  from_translation := fun _ => ()
  from_nonuniform_scale := fun _ => ()
  matMul := fun _ _ => ()
  seed_from_u64 := fun _ => ()
  sampleUniform := fun _ _ r => ((), r)

/-- A shaderc behaviour in which compilation always succeeds. -/
def shadercOk : ShadercModel where
  new := some ()
  compile_into_spirv := fun _ _ _ _ _ =>
    Except.ok { binary := [119734787], num_warnings := 0 }

/-- A shaderc behaviour in which every compilation fails (malformed
shader text). -/
def shadercErr : ShadercModel where
  new := some ()
  compile_into_spirv := fun _ _ _ _ _ => Except.error "compilation error"

/-- A filesystem on which every read succeeds. -/
def fsOk : FsModel where
  read_to_string := fun _ => Except.ok "void main()"

/-- A filesystem on which every read fails. -/
def fsErr : FsModel where
  read_to_string := fun _ => Except.error ()

/-- A state whose ambient filesystem and compiler both succeed. -/
def stateOk : State where
  sc_format := .bgra8UnormSrgb
  uniform_bind_group_layout := 1
  uniform_bind_group := 2
  fs := fsOk
  shaderc := shadercOk

/-- The same state except that shader files cannot be read. -/
def stateReadErr : State where
  sc_format := .bgra8UnormSrgb
  uniform_bind_group_layout := 1
  uniform_bind_group := 2
  fs := fsErr
  shaderc := shadercOk

/-- The same state except that shader compilation fails. -/
def stateCompileErr : State where
  sc_format := .bgra8UnormSrgb
  uniform_bind_group_layout := 1
  uniform_bind_group := 2
  fs := fsOk
  shaderc := shadercErr

/-- A grass handler holding an existing (last-good) bundle. -/
def gOk : grass.GrassPipeline nmUnit := grass.GrassPipeline.create nmUnit stateOk

/-- A quad handler holding an existing (last-good) bundle. -/
def qOk : quad.QuadPipeline nmUnit := quad.QuadPipeline.create nmUnit stateOk

/-- The registered handlers holding last-good bundles. -/
def psOk : Pipelines nmUnit := { quad := qOk, grass := gOk }

/-- A change set naming the grass vertex shader. -/
def changedGrass : List PathBuf := [pathOfStr "dir/assets/shaders/grass.vert"]

/-- A change set naming the quad vertex shader. -/
def changedQuad : List PathBuf := [pathOfStr "some/prefix/assets/shaders/quad.vert"]

/-- A change set naming the shared fragment shader. -/
def changedFrag : List PathBuf := [pathOfStr "dir/assets/shaders/blinn_phong.frag"]

/-- A change set naming only an unrelated file. -/
def changedOther : List PathBuf := [pathOfStr "assets/other.txt"]

/-- A change set naming both vertex shaders. -/
def changedBothVerts : List PathBuf :=
  [pathOfStr "assets/shaders/quad.vert", pathOfStr "assets/shaders/grass.vert"]

/-- A queue of events none of which is a Modify. -/
def evsNoModify : List Event :=
  [ { kind := .create, paths := [pathOfStr "assets/shaders/grass.vert"] }
  , { kind := .remove, paths := [pathOfStr "assets/shaders/quad.vert"] } ]

/-- A queue with Modify and non-Modify events and a duplicated path. -/
def evsMixed : List Event :=
  [ { kind := .create, paths := [pathOfStr "a"] }
  , { kind := .modify, paths := [pathOfStr "b", pathOfStr "c"] }
  , { kind := .modify, paths := [pathOfStr "b"] } ]

/-- A grass handler that has never built a bundle. -/
def gNone : grass.GrassPipeline nmUnit := { render_bundle := none }

/-- An input state in which the value 5 was just pressed and nothing was
just released. -/
def inputCE : Input Nat :=
  { pressed := [], just_pressed := [5], just_released := [] }

/-- The bundle grass::create_bundle builds in the succeeding run. -/
def grassBundleOk : RenderBundle (grass.Vertex nmUnit) (grass.Instance nmUnit) :=
  (grass.create_bundle nmUnit stateOk).get (by rfl)

/-- The descriptor create_default_pipeline builds in the succeeding run. -/
def defaultPipeOk : RenderPipelineDescriptor :=
  (create_default_pipeline fsOk shadercOk .bgra8UnormSrgb [1] []
    (pathOfStr "a.vert") (pathOfStr "a.frag")).get (by rfl)

/-- The descriptor create_transparent_pipeline builds in the succeeding run. -/
def transparentPipeOk : RenderPipelineDescriptor :=
  (create_transparent_pipeline fsOk shadercOk .bgra8UnormSrgb [1] []
    (pathOfStr "a.vert") (pathOfStr "a.frag")).get (by rfl)

/-
Helper lemmas about the watcher's set accumulation.
-/

theorem isModify_iff (k : EventKind) : k.isModify = true ↔ k = .modify := by
  cases k <;> simp [EventKind.isModify]

theorem isModify_eq_false (k : EventKind) (h : k ≠ .modify) : k.isModify = false := by
  cases k <;> simp_all [EventKind.isModify]

theorem mem_hsInsert (s : List PathBuf) (p q : PathBuf) :
    q ∈ hsInsert s p ↔ q ∈ s ∨ q = p := by
  unfold hsInsert
  by_cases h : p ∈ s
  · simp only [if_pos h]
    constructor
    · exact Or.inl
    · rintro (hq | rfl)
      · exact hq
      · exact h
  · simp [if_neg h]

theorem nodup_hsInsert (s : List PathBuf) (p : PathBuf) (h : s.Nodup) :
    (hsInsert s p).Nodup := by
  unfold hsInsert
  by_cases hp : p ∈ s
  · simpa [if_pos hp] using h
  · simp [if_neg hp, List.nodup_append, h, hp]

theorem mem_hsExtend (ps : List PathBuf) : ∀ (s : List PathBuf) (q : PathBuf),
    q ∈ hsExtend s ps ↔ q ∈ s ∨ q ∈ ps := by
  induction ps with
  | nil => intro s q; simp [hsExtend]
  | cons p ps ih =>
      intro s q
      have he : hsExtend s (p :: ps) = hsExtend (hsInsert s p) ps := rfl
      rw [he, ih, mem_hsInsert]
      simp [or_assoc]

theorem nodup_hsExtend (ps : List PathBuf) : ∀ s : List PathBuf,
    s.Nodup → (hsExtend s ps).Nodup := by
  induction ps with
  | nil => intro s h; simpa [hsExtend] using h
  | cons p ps ih =>
      intro s h
      exact ih (hsInsert s p) (nodup_hsInsert s p h)

theorem collectLoop_okQueue_false (evs : List Event) : ∀ acc,
    collectLoop acc (okQueue evs) false = Except.ok (evs.foldl applyEvent acc) := by
  induction evs with
  | nil => intro acc; rfl
  | cons e evs ih => intro acc; exact ih (applyEvent acc e)

theorem collectLoop_okQueue_true (evs : List Event) : ∀ acc,
    collectLoop acc (okQueue evs) true =
      Except.error "Filesystem watcher disconnected." := by
  induction evs with
  | nil => intro acc; rfl
  | cons e evs ih => intro acc; exact ih (applyEvent acc e)

theorem foldl_applyEvent_of_no_modify (evs : List Event) : ∀ acc,
    (∀ e ∈ evs, e.kind ≠ EventKind.modify) → evs.foldl applyEvent acc = acc := by
  induction evs with
  | nil => intro acc _; rfl
  | cons e evs ih =>
      intro acc h
      have hm : e.kind.isModify = false :=
        isModify_eq_false e.kind (h e (List.mem_cons_self e evs))
      have ha : applyEvent acc e = acc := by simp [applyEvent, hm]
      rw [List.foldl_cons, ha]
      exact ih acc fun e' he' => h e' (List.mem_cons_of_mem _ he')

theorem mem_foldl_applyEvent (evs : List Event) :
    ∀ (acc : Option (List PathBuf)) (s : List PathBuf),
      evs.foldl applyEvent acc = some s →
      ∀ p : PathBuf,
        (p ∈ s ↔ (∃ s0, acc = some s0 ∧ p ∈ s0) ∨
          ∃ e, e ∈ evs ∧ e.kind = EventKind.modify ∧ p ∈ e.paths) := by
  induction evs with
  | nil =>
      intro acc s h p
      simp only [List.foldl_nil] at h
      subst h
      simp
  | cons e evs ih =>
      intro acc s h p
      rw [List.foldl_cons] at h
      have hmem := ih (applyEvent acc e) s h p
      by_cases hm : e.kind = EventKind.modify
      · have hb : e.kind.isModify = true := (isModify_iff e.kind).mpr hm
        have h1 : applyEvent acc e = some (hsExtend (acc.getD []) e.paths) := by
          simp [applyEvent, hb]
        rw [h1] at hmem
        rw [hmem]
        simp only [Option.some.injEq, exists_eq_left']
        rw [mem_hsExtend]
        cases acc <;> simp [List.mem_cons] <;> aesop
      · have hb : e.kind.isModify = false := isModify_eq_false e.kind hm
        have h1 : applyEvent acc e = acc := by simp [applyEvent, hb]
        rw [h1] at hmem
        rw [hmem]
        simp only [List.mem_cons]
        aesop

theorem nodup_foldl_applyEvent (evs : List Event) : ∀ acc s,
    evs.foldl applyEvent acc = some s →
    (∀ s0, acc = some s0 → s0.Nodup) → s.Nodup := by
  induction evs with
  | nil =>
      intro acc s h hn
      simp only [List.foldl_nil] at h
      exact hn s h
  | cons e evs ih =>
      intro acc s h hn
      rw [List.foldl_cons] at h
      refine ih (applyEvent acc e) s h ?_
      intro s0 h0
      by_cases hm : e.kind.isModify = true
      · simp only [applyEvent, hm, if_true, Option.some.injEq] at h0
        subst h0
        refine nodup_hsExtend e.paths (acc.getD []) ?_
        cases hacc : acc with
        | none => simp
        | some s1 => simpa using hn s1 hacc
      · simp only [applyEvent, hm, Bool.false_eq_true, if_false] at h0
        exact hn s0 h0

/-- Extracting the instance data of any successfully built grass bundle:
it is the vector generated from seed 0 with 20000 iterations, whatever
the ambient state. -/
theorem grass_create_bundle_instances (nm : NumModel) (s : State)
    (b : RenderBundle (grass.Vertex nm) (grass.Instance nm))
    (h : grass.create_bundle nm s = some b) :
    b.instance_buffer = (grass.genInstances nm 20000 (nm.seed_from_u64 0)).1 := by
  unfold grass.create_bundle at h
  split at h
  · exact Option.noConfusion h
  · rw [Option.some.injEq] at h
    subst h
    simp only []

/-- C3: when the queue holds no Modify events (it is empty or holds only
non-Modify events), collect_modified returns None rather than an empty
set, and the frame loop's dispatch step then does nothing: the state and
every handler, hence every bundle, are returned unchanged (the None
branch never calls any handler's files_changed). -/
theorem claim_no_modify_skips_dispatch :
    ∀ (nm : NumModel) (state : State) (ps : Pipelines nm) (evs : List Event),
      (∀ e ∈ evs, e.kind ≠ EventKind.modify) →
      FileWatcher.collect_modified (okQueue evs) false = Except.ok none ∧
      poll_and_dispatch nm state ps (okQueue evs) false = Except.ok (state, ps) := by
  intro nm state ps evs h
  have h1 : FileWatcher.collect_modified (okQueue evs) false = Except.ok none := by
    unfold FileWatcher.collect_modified
    rw [collectLoop_okQueue_false, foldl_applyEvent_of_no_modify evs none h]
  refine ⟨h1, ?_⟩
  unfold poll_and_dispatch
  rw [h1]

/-- C3 witness: a concrete queue of two non-Modify events leaves concrete
handlers untouched. -/
theorem claim_no_modify_skips_dispatch_witness :
    FileWatcher.collect_modified (okQueue evsNoModify) false = Except.ok none ∧
    poll_and_dispatch nmUnit stateOk psOk (okQueue evsNoModify) false =
      Except.ok (stateOk, psOk) :=
  claim_no_modify_skips_dispatch nmUnit stateOk psOk evsNoModify (by decide)

/-- C5: whenever collect_modified returns a set, that set is exactly the
deduplicated union of the paths of the queued Modify events: it has no
duplicate path, and a path belongs to it exactly when some queued Modify
event carries it, so Create/Remove/other kinds contribute nothing. -/
theorem claim_change_set_is_dedup_union :
    ∀ (evs : List Event) (s : List PathBuf),
      FileWatcher.collect_modified (okQueue evs) false = Except.ok (some s) →
      s.Nodup ∧
        ∀ p : PathBuf,
          (p ∈ s ↔ ∃ e, e ∈ evs ∧ e.kind = EventKind.modify ∧ p ∈ e.paths) := by
  intro evs s h
  unfold FileWatcher.collect_modified at h
  rw [collectLoop_okQueue_false] at h
  have h' : evs.foldl applyEvent none = some s := by
    injection h
  constructor
  · refine nodup_foldl_applyEvent evs none s h' ?_
    intro s0 h0
    exact Option.noConfusion h0
  · intro p
    have hm := mem_foldl_applyEvent evs none s h' p
    simpa using hm

/-- C5 witness: the mixed queue (Create of a, Modify of b and c, Modify
of b again) yields exactly the duplicate-free set containing b and c. -/
theorem claim_change_set_is_dedup_union_witness :
    FileWatcher.collect_modified (okQueue evsMixed) false =
      Except.ok (some [pathOfStr "b", pathOfStr "c"]) ∧
    ([pathOfStr "b", pathOfStr "c"] : List PathBuf).Nodup := by
  have h : FileWatcher.collect_modified (okQueue evsMixed) false =
      Except.ok (some [pathOfStr "b", pathOfStr "c"]) := rfl
  exact ⟨h, (claim_change_set_is_dedup_union evsMixed [pathOfStr "b", pathOfStr "c"] h).1⟩

/-- C6: once the buffered entries are drained, a Disconnected channel
makes collect_modified terminate with the panic "Filesystem watcher
disconnected." instead of returning normally. -/
theorem claim_disconnect_is_fatal :
    ∀ evs : List Event,
      FileWatcher.collect_modified (okQueue evs) true =
        Except.error "Filesystem watcher disconnected." := by
  intro evs
  exact collectLoop_okQueue_true evs none

/-- C9: for every Input state and value, the just_released accessor
returns membership of the value in the just_pressed set (it coincides
with the just_pressed accessor), and it can disagree with membership in
the just_released set. -/
theorem claim_just_released_reads_just_pressed :
    (∀ (T : Type) [DecidableEq T] (i : Input T) (v : T),
        Input.isJustReleased i v = Input.isJustPressed i v) ∧
    Input.isJustReleased inputCE 5 ≠ decide (5 ∈ inputCE.just_released) := by
  refine ⟨fun T _ i v => rfl, by decide⟩

/-- C10: a change set holding a path that ends in
assets/shaders/blinn_phong.frag satisfies both handlers' rebuild guards,
so both GrassPipeline::files_changed and QuadPipeline::files_changed
trigger a rebuild in the same dispatch. -/
theorem claim_blinn_phong_triggers_both :
    ∀ changed : List PathBuf,
      (∃ p, p ∈ changed ∧
        PathBuf.ends_with p (pathOfStr "assets/shaders/blinn_phong.frag") = true) →
      grass.shader_changed changed = true ∧ quad.shader_changed changed = true := by
  intro changed h
  obtain ⟨p, hp, he⟩ := h
  constructor
  · unfold grass.shader_changed
    rw [List.any_eq_true]
    exact ⟨p, hp, by rw [he]; simp⟩
  · unfold quad.shader_changed
    rw [List.any_eq_true]
    exact ⟨p, hp, by rw [he]; simp⟩

/-- C10 witness: a concrete path ending in the shared fragment shader
triggers both guards. -/
theorem claim_blinn_phong_triggers_both_witness :
    grass.shader_changed changedFrag = true ∧ quad.shader_changed changedFrag = true :=
  claim_blinn_phong_triggers_both changedFrag
    ⟨pathOfStr "dir/assets/shaders/blinn_phong.frag", by decide, by decide⟩

/-- C1: whichever handler (GrassPipeline or QuadPipeline) and whatever
prior bundle it holds, a change set matching its shader suffixes whose
rebuild returns None leaves the render_bundle field, and hence what
render_bundle() returns, unchanged; a change set matching no suffix
leaves the handler unchanged as well. -/
theorem claim_failure_preserves_last_good :
    ∀ (nm : NumModel) (state : State) (g : grass.GrassPipeline nm)
      (q : quad.QuadPipeline nm) (changed : List PathBuf),
      (grass.shader_changed changed = true → grass.create_bundle nm state = none →
        (grass.GrassPipeline.files_changed nm g state changed).render_bundle
          = g.render_bundle) ∧
      (grass.shader_changed changed = false →
        grass.GrassPipeline.files_changed nm g state changed = g) ∧
      (quad.shader_changed changed = true → quad.create_bundle nm state = none →
        (quad.QuadPipeline.files_changed nm q state changed).render_bundle
          = q.render_bundle) ∧
      (quad.shader_changed changed = false →
        quad.QuadPipeline.files_changed nm q state changed = q) := by
  intro nm state g q changed
  refine ⟨?_, ?_, ?_, ?_⟩
  · intro hg hn
    simp [grass.GrassPipeline.files_changed, hg, hn]
  · intro hg
    simp [grass.GrassPipeline.files_changed, hg]
  · intro hq hn
    simp [quad.QuadPipeline.files_changed, hq, hn]
  · intro hq
    simp [quad.QuadPipeline.files_changed, hq]

/-- C1 witness: concrete handlers with existing bundles keep them when
the read fails (grass) and when compilation fails (quad), and under an
unmatched change set. -/
theorem claim_failure_preserves_last_good_witness :
    (grass.GrassPipeline.files_changed nmUnit gOk stateReadErr changedGrass).render_bundle
      = gOk.render_bundle ∧
    grass.GrassPipeline.files_changed nmUnit gOk stateReadErr changedOther = gOk ∧
    (quad.QuadPipeline.files_changed nmUnit qOk stateCompileErr changedQuad).render_bundle
      = qOk.render_bundle ∧
    quad.QuadPipeline.files_changed nmUnit qOk stateCompileErr changedOther = qOk := by
  have A := claim_failure_preserves_last_good nmUnit stateReadErr gOk qOk changedGrass
  have B := claim_failure_preserves_last_good nmUnit stateReadErr gOk qOk changedOther
  have C := claim_failure_preserves_last_good nmUnit stateCompileErr gOk qOk changedQuad
  have D := claim_failure_preserves_last_good nmUnit stateCompileErr gOk qOk changedOther
  exact ⟨A.1 (by decide) rfl, B.2.1 (by decide), C.2.2.1 (by decide) rfl,
    D.2.2.2 (by decide)⟩

/-- C2 counterexample: the set holding both vertex shader paths contains
a path ending in assets/shaders/quad.vert, yet GrassPipeline's rebuild
guard fires too (its grass.vert entry matches) and its files_changed
observably installs a bundle into a previously empty handler, so the
claim's "GrassPipeline::files_changed does not [trigger a rebuild]" fails
on this change set. -/
theorem claim_suffix_matching_counterexample :
    PathBuf.ends_with (pathOfStr "assets/shaders/quad.vert")
      (pathOfStr "assets/shaders/quad.vert") = true ∧
    pathOfStr "assets/shaders/quad.vert" ∈ changedBothVerts ∧
    grass.shader_changed changedBothVerts = true ∧
    (grass.GrassPipeline.files_changed nmUnit gNone stateOk
        changedBothVerts).render_bundle.isSome = true ∧
    gNone.render_bundle.isSome = false := by
  exact ⟨by decide, by decide, by decide, rfl, rfl⟩

/-- C2 amended: a change set containing a path ending in
assets/shaders/quad.vert always triggers QuadPipeline's rebuild guard;
GrassPipeline's guard stays false provided no path in the set ends in
assets/shaders/grass.vert or assets/shaders/blinn_phong.frag (so in
particular for a set containing only the quad.vert path); and a set
containing only paths matching none of the three suffixes triggers
neither guard. -/
theorem claim_suffix_matching_amended :
    ∀ changed : List PathBuf,
      ((∃ p, p ∈ changed ∧
          PathBuf.ends_with p (pathOfStr "assets/shaders/quad.vert") = true) →
        quad.shader_changed changed = true) ∧
      ((∀ p ∈ changed,
          PathBuf.ends_with p (pathOfStr "assets/shaders/grass.vert") = false ∧
          PathBuf.ends_with p (pathOfStr "assets/shaders/blinn_phong.frag") = false) →
        grass.shader_changed changed = false) ∧
      ((∀ p ∈ changed,
          PathBuf.ends_with p (pathOfStr "assets/shaders/quad.vert") = false ∧
          PathBuf.ends_with p (pathOfStr "assets/shaders/grass.vert") = false ∧
          PathBuf.ends_with p (pathOfStr "assets/shaders/blinn_phong.frag") = false) →
        grass.shader_changed changed = false ∧
          quad.shader_changed changed = false) := by
  intro changed
  refine ⟨?_, ?_, ?_⟩
  · rintro ⟨p, hp, he⟩
    unfold quad.shader_changed
    rw [List.any_eq_true]
    exact ⟨p, hp, by rw [he]; simp⟩
  · intro h
    unfold grass.shader_changed
    cases hb : changed.any fun path =>
        path.ends_with (pathOfStr "assets/shaders/grass.vert") ||
          path.ends_with (pathOfStr "assets/shaders/blinn_phong.frag") with
    | false => rfl
    | true =>
        exfalso
        rw [List.any_eq_true] at hb
        obtain ⟨p, hp, hor⟩ := hb
        obtain ⟨h1, h2⟩ := h p hp
        rw [h1, h2] at hor
        exact Bool.noConfusion hor
  · intro h
    constructor
    · unfold grass.shader_changed
      cases hb : changed.any fun path =>
          path.ends_with (pathOfStr "assets/shaders/grass.vert") ||
            path.ends_with (pathOfStr "assets/shaders/blinn_phong.frag") with
      | false => rfl
      | true =>
          exfalso
          rw [List.any_eq_true] at hb
          obtain ⟨p, hp, hor⟩ := hb
          obtain ⟨h1, h2, h3⟩ := h p hp
          rw [h2, h3] at hor
          exact Bool.noConfusion hor
    · unfold quad.shader_changed
      cases hb : changed.any fun path =>
          path.ends_with (pathOfStr "assets/shaders/quad.vert") ||
            path.ends_with (pathOfStr "assets/shaders/blinn_phong.frag") with
      | false => rfl
      | true =>
          exfalso
          rw [List.any_eq_true] at hb
          obtain ⟨p, hp, hor⟩ := hb
          obtain ⟨h1, h2, h3⟩ := h p hp
          rw [h1, h3] at hor
          exact Bool.noConfusion hor

/-- C2 amended witness: the quad.vert change set triggers Quad's guard
and not Grass's, and the unrelated set triggers neither. -/
theorem claim_suffix_matching_amended_witness :
    quad.shader_changed changedQuad = true ∧
    grass.shader_changed changedQuad = false ∧
    grass.shader_changed changedOther = false ∧
    quad.shader_changed changedOther = false := by
  have A := claim_suffix_matching_amended changedQuad
  have B := claim_suffix_matching_amended changedOther
  refine ⟨A.1 ⟨pathOfStr "some/prefix/assets/shaders/quad.vert", by decide, by decide⟩,
    A.2.1 (by decide), (B.2.2 (by decide)).1, (B.2.2 (by decide)).2⟩

/-- C8: grass instance generation is deterministic: any two successful
runs of grass::create_bundle (the seed 0 and the count 20000 are fixed in
the code) produce identical instance transform sequences, both equal to
the vector generated from the seed alone, independent of the ambient
state. -/
theorem claim_grass_instances_deterministic :
    ∀ (nm : NumModel) (s1 s2 : State)
      (b1 b2 : RenderBundle (grass.Vertex nm) (grass.Instance nm)),
      grass.create_bundle nm s1 = some b1 → grass.create_bundle nm s2 = some b2 →
      b1.instance_buffer = b2.instance_buffer ∧
      b1.instance_buffer = (grass.genInstances nm 20000 (nm.seed_from_u64 0)).1 := by
  intro nm s1 s2 b1 b2 h1 h2
  have e1 := grass_create_bundle_instances nm s1 b1 h1
  have e2 := grass_create_bundle_instances nm s2 b2 h2
  exact ⟨e1.trans e2.symm, e1⟩

/-- C8 witness: the successful concrete run carries exactly the instance
vector generated from seed 0. -/
theorem claim_grass_instances_deterministic_witness :
    grass.create_bundle nmUnit stateOk = some grassBundleOk ∧
    grassBundleOk.instance_buffer =
      (grass.genInstances nmUnit 20000 (nmUnit.seed_from_u64 0)).1 := by
  have hEq : grass.create_bundle nmUnit stateOk = some grassBundleOk :=
    (Option.some_get _).symm
  exact ⟨hEq, (claim_grass_instances_deterministic nmUnit stateOk stateOk
    grassBundleOk grassBundleOk hEq hEq).2⟩

/-- C4: create_default_pipeline returns None whenever reading either
shader file fails and whenever compiling either stage fails, and
compile_shader maps every compile error to the failure value None (the
embedding is a total function into Option: malformed source has no panic
outcome, only the logged-and-returned None). -/
theorem claim_create_pipeline_error_handling :
    ∀ (fs : FsModel) (sc : ShadercModel) (fmt : TextureFormat) (bgl : List Nat)
      (vbl : List VertexBufferLayout) (vs_path fs_path : PathBuf),
      (fs.read_to_string vs_path = Except.error () →
        create_default_pipeline fs sc fmt bgl vbl vs_path fs_path = none) ∧
      (fs.read_to_string fs_path = Except.error () →
        create_default_pipeline fs sc fmt bgl vbl vs_path fs_path = none) ∧
      (∀ src msg, fs.read_to_string vs_path = Except.ok src →
        sc.compile_into_spirv src ShaderKind.vertex
          ((vs_path.to_str).getD "vertex_shader.unknown") "main" none =
            Except.error msg →
        create_default_pipeline fs sc fmt bgl vbl vs_path fs_path = none) ∧
      (∀ src msg, fs.read_to_string fs_path = Except.ok src →
        sc.compile_into_spirv src ShaderKind.fragment
          ((fs_path.to_str).getD "fragment_shader.unknown") "main" none =
            Except.error msg →
        create_default_pipeline fs sc fmt bgl vbl vs_path fs_path = none) ∧
      (∀ src kind name entry opts msg,
        sc.compile_into_spirv src kind name entry opts = Except.error msg →
        compile_shader sc src kind name entry opts = none) := by
  intro fs sc fmt bgl vbl vs_path fs_path
  have hcs : ∀ src kind name entry opts msg,
      sc.compile_into_spirv src kind name entry opts = Except.error msg →
      compile_shader sc src kind name entry opts = none := by
    intro src kind name entry opts msg hcomp
    unfold compile_shader
    cases hn : sc.new with
    | none => rfl
    | some u => rw [hcomp]
  refine ⟨?_, ?_, ?_, ?_, hcs⟩
  · intro h
    simp [create_default_pipeline, h, Except.toOption]
  · intro h
    unfold create_default_pipeline
    cases hv : (fs.read_to_string vs_path).toOption with
    | none => simp
    | some vs_src =>
        cases hc : compile_shader sc vs_src ShaderKind.vertex
            ((vs_path.to_str).getD "vertex_shader.unknown") "main" none with
        | none => simp [hc]
        | some vs_data => simp [hc, h, Except.toOption]
  · intro src msg hr hcomp
    have h0 := hcs src ShaderKind.vertex
      ((vs_path.to_str).getD "vertex_shader.unknown") "main" none msg hcomp
    simp [create_default_pipeline, hr, Except.toOption, h0]
  · intro src msg hr hcomp
    have h0 := hcs src ShaderKind.fragment
      ((fs_path.to_str).getD "fragment_shader.unknown") "main" none msg hcomp
    unfold create_default_pipeline
    cases hv : (fs.read_to_string vs_path).toOption with
    | none => simp
    | some vs_src =>
        cases hc : compile_shader sc vs_src ShaderKind.vertex
            ((vs_path.to_str).getD "vertex_shader.unknown") "main" none with
        | none => simp [hc]
        | some vs_data => simp [hc, hr, Except.toOption, h0]

/-- C4 witness: a failing read, a failing vertex compile, a failing
fragment compile, and a raw compile error all yield None at concrete
inputs. -/
theorem claim_create_pipeline_error_handling_witness :
    create_default_pipeline fsErr shadercOk TextureFormat.bgra8UnormSrgb [1] []
      (pathOfStr "a.vert") (pathOfStr "a.frag") = none ∧
    create_default_pipeline fsOk shadercErr TextureFormat.bgra8UnormSrgb [1] []
      (pathOfStr "a.vert") (pathOfStr "a.frag") = none ∧
    compile_shader shadercErr "bad source" ShaderKind.vertex "a.vert" "main" none
      = none := by
  have A := claim_create_pipeline_error_handling fsErr shadercOk
    TextureFormat.bgra8UnormSrgb [1] [] (pathOfStr "a.vert") (pathOfStr "a.frag")
  have B := claim_create_pipeline_error_handling fsOk shadercErr
    TextureFormat.bgra8UnormSrgb [1] [] (pathOfStr "a.vert") (pathOfStr "a.frag")
  exact ⟨A.1 rfl,
    B.2.2.1 "void main()" "compilation error" rfl rfl,
    B.2.2.2.2 "bad source" ShaderKind.vertex "a.vert" "main" none
      "compilation error" rfl⟩

/-- C7: every descriptor create_default_pipeline produces has the depth
test enabled with less-than comparison and depth writes on, no culling,
counter-clockwise front face, and REPLACE color and alpha blends on its
single color target; every descriptor create_transparent_pipeline
produces has the same depth, cull and front-face state but
SrcAlpha/OneMinusSrcAlpha additive color blend and One/One Max alpha
blend. -/
theorem claim_fixed_function_state :
    ∀ (fs : FsModel) (sc : ShadercModel) (fmt : TextureFormat) (bgl : List Nat)
      (vbl : List VertexBufferLayout) (vs_path fs_path : PathBuf),
      (∀ d, create_default_pipeline fs sc fmt bgl vbl vs_path fs_path = some d →
        d.primitive.cull_mode = CullMode.none ∧
        d.primitive.front_face = FrontFace.ccw ∧
        d.depth_stencil = some
          { format := Texture.DEPTH_FORMAT
            depth_write_enabled := true
            depth_compare := CompareFunction.less
            stencil := StencilState.default
            bias := DepthBiasState.default
            clamp_depth := false } ∧
        (d.fragment.map fun f => f.targets.map fun t =>
            (t.format, t.alpha_blend, t.color_blend, t.write_mask)) =
          some [(fmt, BlendState.REPLACE, BlendState.REPLACE, ColorWrite.ALL)]) ∧
      (∀ d, create_transparent_pipeline fs sc fmt bgl vbl vs_path fs_path = some d →
        d.primitive.cull_mode = CullMode.none ∧
        d.primitive.front_face = FrontFace.ccw ∧
        d.depth_stencil = some
          { format := Texture.DEPTH_FORMAT
            depth_write_enabled := true
            depth_compare := CompareFunction.less
            stencil := StencilState.default
            bias := DepthBiasState.default
            clamp_depth := false } ∧
        (d.fragment.map fun f => f.targets.map fun t =>
            (t.format, t.alpha_blend, t.color_blend, t.write_mask)) =
          some [(fmt,
            { src_factor := BlendFactor.one
              dst_factor := BlendFactor.one
              operation := BlendOperation.max },
            { src_factor := BlendFactor.srcAlpha
              dst_factor := BlendFactor.oneMinusSrcAlpha
              operation := BlendOperation.add },
            ColorWrite.ALL)]) := by
  intro fs sc fmt bgl vbl vs_path fs_path
  constructor
  · intro d h
    unfold create_default_pipeline at h
    simp only [Option.bind_eq_bind, Option.bind_eq_some, Option.some.injEq] at h
    obtain ⟨vs_src, hv, vs_data, hc, fs_src, hf, fs_data, hd, hrec⟩ := h
    subst hrec
    exact ⟨rfl, rfl, rfl, rfl⟩
  · intro d h
    unfold create_transparent_pipeline at h
    simp only [Option.bind_eq_bind, Option.bind_eq_some, Option.some.injEq] at h
    obtain ⟨vs_src, hv, vs_data, hc, fs_src, hf, fs_data, hd, hrec⟩ := h
    subst hrec
    exact ⟨rfl, rfl, rfl, rfl⟩

/-- C7 witness: the two concrete successfully built descriptors exhibit
the stated fixed-function state. -/
theorem claim_fixed_function_state_witness :
    create_default_pipeline fsOk shadercOk TextureFormat.bgra8UnormSrgb [1] []
      (pathOfStr "a.vert") (pathOfStr "a.frag") = some defaultPipeOk ∧
    defaultPipeOk.primitive.cull_mode = CullMode.none ∧
    defaultPipeOk.primitive.front_face = FrontFace.ccw ∧
    create_transparent_pipeline fsOk shadercOk TextureFormat.bgra8UnormSrgb [1] []
      (pathOfStr "a.vert") (pathOfStr "a.frag") = some transparentPipeOk ∧
    transparentPipeOk.primitive.cull_mode = CullMode.none ∧
    transparentPipeOk.primitive.front_face = FrontFace.ccw := by
  have hD : create_default_pipeline fsOk shadercOk TextureFormat.bgra8UnormSrgb [1] []
      (pathOfStr "a.vert") (pathOfStr "a.frag") = some defaultPipeOk :=
    (Option.some_get _).symm
  have hT : create_transparent_pipeline fsOk shadercOk TextureFormat.bgra8UnormSrgb [1] []
      (pathOfStr "a.vert") (pathOfStr "a.frag") = some transparentPipeOk :=
    (Option.some_get _).symm
  have A := claim_fixed_function_state fsOk shadercOk TextureFormat.bgra8UnormSrgb [1] []
    (pathOfStr "a.vert") (pathOfStr "a.frag")
  exact ⟨hD, (A.1 defaultPipeOk hD).1, (A.1 defaultPipeOk hD).2.1,
    hT, (A.2 transparentPipeOk hT).1, (A.2 transparentPipeOk hT).2.1⟩

end GrassWgpu
